import Mathlib

set_option linter.unusedVariables false

/-!
Shallow embedding of the dyndns forwarding server, from the two Python
sources `src/dyndnsutil.py` and `src/dyndns-update-server.py`.

Modelling conventions:
* IP addresses are natural numbers (the integer value of their bytes); an
  `IPAddress` carries the protocol version tag that Python's `ipaddress`
  objects expose as `.version`.  Both inputs to the combiner are below the
  width cap of their version, so the bitwise OR never overflows and no
  masking is needed.
* An `IPNetwork` is what `ip_from_network_and_suffix` reads from a Python
  `IPv4Network`/`IPv6Network` argument: its version and the integer value of
  its `network_address`.  `IPv6Network` is the v6-only form used by
  `DynDNSTarget.update_ips` (the prefix length is never read there).
* Exceptions become an explicit `Except PyExc` result.  `PyExc.typeError`
  stands for the `TypeError` raised by the combiner (its message string is
  not modelled), `PyExc.nameError` for a `NameError` raised by evaluating an
  undefined variable.
* Provider credentials and endpoint URLs only feed the outbound request
  parameters, which no modelled behaviour reads; the constructors keep the
  credential arguments but do not store them.
* The outbound `session.get` of a `do_update` call is modelled by a
  `GetResult`: either a delivered response carrying its status code, or a
  raised `aiohttp.ClientResponseError` (what a `raise_for_status=True`
  session does on a status of 400 or more), or any other raised exception.
  aiohttp's `response.ok` is `status < 400`.
-/

namespace DynDNS

/-- Exceptions and raised HTTP statuses that the embedded code can signal. -/
inductive PyExc
  | typeError
  | clientResponseError (status : Nat)
  | otherException
  | nameError
  | httpException (status : Nat)
  deriving DecidableEq, Repr

/-- Protocol version of an `ipaddress` object (`.version` is 4 or 6). -/
inductive IPVersion
  | v4
  | v6
  deriving DecidableEq, Repr

/-- An `IPv4Address` or `IPv6Address`: version tag plus integer bit value. -/
structure IPAddress where
  version : IPVersion
  bits : Nat
  deriving DecidableEq, Repr

/-- What the combiner reads from an `IPv4Network | IPv6Network` argument:
the version and the integer value of `network_address`. -/
structure IPNetwork where
  version : IPVersion
  network_address : Nat
  deriving DecidableEq, Repr

/-- Combiner `ip_from_network_and_suffix` (dyndnsutil.py lines 167-182):
raises `TypeError` when the versions differ, otherwise returns the address
whose integer value is the bitwise OR of the network address and the suffix,
built with the network's version (`IPv4Address(ip)` when `version == 4`,
else `IPv6Address(ip)`; under the guard both versions agree). -/
def ip_from_network_and_suffix (network : IPNetwork) (suffix : IPAddress) :
    Except PyExc IPAddress :=
  if network.version ≠ suffix.version then
    Except.error PyExc.typeError
  else
    Except.ok ⟨network.version, Nat.lor network.network_address suffix.bits⟩

/-- An `IPv6Network` as `DynDNSTarget.update_ips` uses it: only the integer
value of its `network_address` is ever read. -/
structure IPv6Network where
  network_address : Nat
  deriving DecidableEq, Repr

/-- The value `ip_from_network_and_suffix` computes on the always-matching
v6/v6 inputs that `update_ips` feeds it (see `combineV6_eq_combiner`). -/
def combineV6 (p : IPv6Network) (sfx : Nat) : Nat :=
  Nat.lor p.network_address sfx

/-- Which concrete class a target object belongs to.  `generic` is the
`DynDNSTarget` base class itself. -/
inductive TargetKind
  | generic
  | ionos
  | namecheap
  | inwx
  deriving DecidableEq, Repr

/-- State of one `DynDNSTarget` object (dyndnsutil.py lines 9-22): the
identifying `name`, the optional configured IPv6 suffix, the desired
(`_new_*`) and confirmed (`_last_successful_*`) addresses.  `kind` records
the concrete class for method dispatch. -/
structure Target where
  kind : TargetKind
  name : String
  ipv6_suffix : Option Nat
  new_ipv4 : Option Nat
  new_ipv6 : Option Nat
  last_successful_ipv4 : Option Nat
  last_successful_ipv6 : Option Nat
  deriving DecidableEq, Repr

/-- `DynDNSTarget.__init__` (lines 10-22): stores name and suffix, all four
address fields start as `None`. -/
def DynDNSTarget.init (nm : String) (ipv6_suffix : Option Nat) : Target :=
  ⟨TargetKind.generic, nm, ipv6_suffix, none, none, none, none⟩

/-- `IonosDynDNSTarget.__init__` (lines 68-70): delegates to the base
constructor with the same name and suffix; the API key `q` only feeds the
request parameters. -/
def IonosDynDNSTarget.init (q nm : String) (ipv6_suffix : Option Nat) : Target :=
  { DynDNSTarget.init nm ipv6_suffix with kind := TargetKind.ionos }

/-- `NamecheapDynDNSTarget.__init__` (lines 95-105): calls the base
constructor with only the combined host.domain name, so the base
constructor's `ipv6_suffix` parameter takes its `None` default — the
`ipv6_suffix` argument accepted here is dropped.  The password, host and
domain only feed the request parameters. -/
def NamecheapDynDNSTarget.init (ddns_password host domain : String)
    (ipv6_suffix : Option Nat) : Target :=
  { DynDNSTarget.init (host ++ "." ++ domain) none with kind := TargetKind.namecheap }

/-- `INWXDynDNSTarget.__init__` (lines 138-142): base constructor with the
username as the name; the basic-auth credentials only feed the request. -/
def INWXDynDNSTarget.init (username password : String) (ipv6_suffix : Option Nat) :
    Target :=
  { DynDNSTarget.init username ipv6_suffix with kind := TargetKind.inwx }

/-- The `needs_update` property.  Base class (lines 24-29): desired differs
from confirmed on either family.  `NamecheapDynDNSTarget` overrides it
(lines 109-111) to compare only the IPv4 pair. -/
def needs_update (t : Target) : Bool :=
  match t.kind with
  | TargetKind.namecheap => decide (t.new_ipv4 ≠ t.last_successful_ipv4)
  | _ =>
      decide (t.new_ipv4 ≠ t.last_successful_ipv4 ∨
        t.new_ipv6 ≠ t.last_successful_ipv6)

/-- `DynDNSTarget.update_ips` (lines 33-50): `_new_ipv4` is set to the input
verbatim; with a configured suffix the input ipv6 is ignored and `_new_ipv6`
is the combiner result when a prefix is given, else `None`; without a suffix
`_new_ipv6` is the input verbatim. -/
def update_ips (t : Target) (ipv4 ipv6 : Option Nat) (ipv6pfx : Option IPv6Network) :
    Target :=
  match t.ipv6_suffix, ipv6pfx with
  | some sfx, some p =>
      { t with new_ipv4 := ipv4, new_ipv6 := some (combineV6 p sfx) }
  | some _, none => { t with new_ipv4 := ipv4, new_ipv6 := none }
  | none, _ => { t with new_ipv4 := ipv4, new_ipv6 := ipv6 }

/-- Outcome of the one `session.get` a provider `do_update` performs:
a delivered response with its status code, a raised
`aiohttp.ClientResponseError` carrying a status, or any other raised
exception. -/
inductive GetResult
  | resp (status : Nat)
  | raiseRespErr (status : Nat)
  | raiseOther
  deriving DecidableEq, Repr

/-- The `do_update` coroutine of each class, returning the new object state
and the call's result.  Base class (lines 57-60): no request at all, copies
desired into confirmed and returns `True`.  Ionos (72-87), Namecheap
(113-130) and INWX (144-161) all share the same control flow around their
one GET: a raised exception propagates with the state untouched; on a
delivered response, `response.ok` (aiohttp: `status < 400`) decides whether
both confirmed fields are set from the desired fields and `True` is
returned, or nothing changes and `False` is returned. -/
def do_update (t : Target) (g : GetResult) : Target × Except PyExc Bool :=
  match t.kind with
  | TargetKind.generic =>
      ({ t with last_successful_ipv4 := t.new_ipv4,
                last_successful_ipv6 := t.new_ipv6 }, Except.ok true)
  | _ =>
      match g with
      | GetResult.resp s =>
          if s < 400 then
            ({ t with last_successful_ipv4 := t.new_ipv4,
                      last_successful_ipv6 := t.new_ipv6 }, Except.ok true)
          else (t, Except.ok false)
      | GetResult.raiseRespErr s => (t, Except.error (PyExc.clientResponseError s))
      | GetResult.raiseOther => (t, Except.error PyExc.otherException)

/-- The response-parsing loop of the `dyndns` handler
(dyndns-update-server.py lines 137-160), folding the gathered per-target
results into the `error_codes` set.  A `ClientResponseError` adds its
status; a result of `False` adds 500; a result of `True` adds nothing.  Any
other exception takes the `isinstance(response, Exception)` branch, whose
log f-string evaluates the undefined name `e` (line 149) and therefore
raises `NameError`, aborting the whole handler. -/
def parse_responses : List (Except PyExc Bool) → Except PyExc (Finset Nat)
  | [] => Except.ok ∅
  | r :: rest =>
    match r with
    | Except.error (PyExc.clientResponseError s) =>
        (parse_responses rest).map (fun codes => insert s codes)
    | Except.error _ => Except.error PyExc.nameError
    | Except.ok true => parse_responses rest
    | Except.ok false =>
        (parse_responses rest).map (fun codes => insert 500 codes)

/-- The final reduction of the handler (lines 163-168): empty set of error
codes means 200, exactly the one code 429 means 429, anything else 500. -/
def reduce_codes (codes : Finset Nat) : Nat :=
  if codes.card = 0 then 200
  else if codes.card = 1 ∧ 429 ∈ codes then 429
  else 500

/-- The fan-out of the handler (lines 118-135): walk the targets (whose
desired state was just set), call `do_update` for exactly those for which
`needs_update` holds, and return the final target states together with the
list of gathered per-call results in order.  `tr i` is the transport outcome
of the i-th issued call; `asyncio.gather(..., return_exceptions=True)`
delivers each call's value or exception independently. -/
def run_updates (tr : Nat → GetResult) : Nat → List Target → List Target × List (Except PyExc Bool)
  | _, [] => ([], [])
  | i, t :: rest =>
    if needs_update t then
      let r := do_update t (tr i)
      let p := run_updates tr (i + 1) rest
      (r.1 :: p.1, r.2 :: p.2)
    else
      let p := run_updates tr i rest
      (t :: p.1, p.2)

/-- Observable outcome of one orchestration pass: the HTTP status code of
the returned `Response`, the final states of all configured targets, and
how many outbound `do_update` calls were issued. -/
structure PassResult where
  status_code : Nat
  final_targets : List Target
  calls_issued : Nat
  deriving DecidableEq, Repr

/-- The `dyndns` handler from the point where the three parameters have been
parsed into optional values (lines 98-168).  All three absent raises
`HTTPException(422)`.  The FritzBox filter (lines 111-115): ipv4 present,
ipv6 absent, prefix present returns 200 immediately, touching no target.
Otherwise every target's desired state is set, the needed calls are issued,
and the gathered results are parsed and reduced; an exception escaping the
parse loop propagates out of the handler. -/
def dyndns (ipv4 ipv6 : Option Nat) (ipv6pfx : Option IPv6Network)
    (targets : List Target) (tr : Nat → GetResult) : Except PyExc PassResult :=
  if ipv4 = none ∧ ipv6 = none ∧ ipv6pfx = none then
    Except.error (PyExc.httpException 422)
  else if ipv4 ≠ none ∧ ipv6 = none ∧ ipv6pfx ≠ none then
    Except.ok ⟨200, targets, 0⟩
  else
    let ts := targets.map (fun t => update_ips t ipv4 ipv6 ipv6pfx)
    let p := run_updates tr 0 ts
    match parse_responses p.2 with
    | Except.error exc => Except.error exc
    | Except.ok codes => Except.ok ⟨reduce_codes codes, p.1, p.2.length⟩

/-- Iterated `update_ips`: the target's state after a sequence of
set-desired calls, each given as an (ipv4, ipv6, ipv6 prefix) triple. -/
def apply_updates (t : Target) :
    List (Option Nat × Option Nat × Option IPv6Network) → Target
  | [] => t
  | x :: rest => apply_updates (update_ips t x.1 x.2.1 x.2.2) rest

/-- Trace of `needs_update` observations along a sequence of `update_ips`
calls: the value of the property right after each call. -/
def run_set_desired (t : Target) :
    List (Option Nat × Option Nat × Option IPv6Network) → List Bool
  | [] => []
  | x :: rest =>
    let t2 := update_ips t x.1 x.2.1 x.2.2
    needs_update t2 :: run_set_desired t2 rest

/-- An empty display name, for concrete instances. -/
def noName : String := ""

/-- A freshly constructed Ionos target with no configured suffix. -/
def ionos0 : Target := IonosDynDNSTarget.init noName noName none

/-- A freshly constructed INWX target with no configured suffix. -/
def inwx0 : Target := INWXDynDNSTarget.init noName noName none

/-- A freshly constructed Namecheap target (constructed without a suffix). -/
def namecheap0 : Target := NamecheapDynDNSTarget.init noName noName noName none

/-- A fresh generic target configured with the IPv6 suffix 3. -/
def sfxT : Target := DynDNSTarget.init noName (some 3)

theorem combineV6_eq_combiner (p : IPv6Network) (sfx : Nat) :
    ip_from_network_and_suffix ⟨IPVersion.v6, p.network_address⟩ ⟨IPVersion.v6, sfx⟩ =
      Except.ok ⟨IPVersion.v6, combineV6 p sfx⟩ := rfl

theorem update_ips_kind (t : Target) (i4 i6 : Option Nat) (p : Option IPv6Network) :
    (update_ips t i4 i6 p).kind = t.kind := by
  cases h : t.ipv6_suffix <;> cases p <;> simp [update_ips, h]

theorem update_ips_new4 (t : Target) (i4 i6 : Option Nat) (p : Option IPv6Network) :
    (update_ips t i4 i6 p).new_ipv4 = i4 := by
  cases h : t.ipv6_suffix <;> cases p <;> simp [update_ips, h]

theorem update_ips_last4 (t : Target) (i4 i6 : Option Nat) (p : Option IPv6Network) :
    (update_ips t i4 i6 p).last_successful_ipv4 = t.last_successful_ipv4 := by
  cases h : t.ipv6_suffix <;> cases p <;> simp [update_ips, h]

theorem update_ips_suffix (t : Target) (i4 i6 : Option Nat) (p : Option IPv6Network) :
    (update_ips t i4 i6 p).ipv6_suffix = t.ipv6_suffix := by
  cases h : t.ipv6_suffix <;> cases p <;> simp [update_ips, h]

theorem apply_updates_suffix (t : Target)
    (l : List (Option Nat × Option Nat × Option IPv6Network)) :
    (apply_updates t l).ipv6_suffix = t.ipv6_suffix := by
  induction l generalizing t with
  | nil => rfl
  | cons x rest ih => rw [apply_updates, ih, update_ips_suffix]

theorem run_set_desired_namecheap_congr (t1 t2 : Target)
    (hk1 : t1.kind = TargetKind.namecheap) (hk2 : t2.kind = TargetKind.namecheap)
    (hl : t1.last_successful_ipv4 = t2.last_successful_ipv4) :
    ∀ xs ys : List (Option Nat × Option Nat × Option IPv6Network),
      xs.map Prod.fst = ys.map Prod.fst →
      run_set_desired t1 xs = run_set_desired t2 ys := by
  intro xs
  induction xs generalizing t1 t2 with
  | nil =>
    intro ys h
    cases ys with
    | nil => rfl
    | cons y rest2 => simp at h
  | cons x rest ih =>
    intro ys h
    cases ys with
    | nil => simp at h
    | cons y rest2 =>
      obtain ⟨x1, x2, x3⟩ := x
      obtain ⟨y1, y2, y3⟩ := y
      simp only [List.map_cons, List.cons.injEq] at h
      obtain ⟨h1, h2⟩ := h
      subst h1
      have hk1' : (update_ips t1 x1 x2 x3).kind = TargetKind.namecheap := by
        rw [update_ips_kind, hk1]
      have hk2' : (update_ips t2 x1 y2 y3).kind = TargetKind.namecheap := by
        rw [update_ips_kind, hk2]
      have hl' : (update_ips t1 x1 x2 x3).last_successful_ipv4 =
          (update_ips t2 x1 y2 y3).last_successful_ipv4 := by
        rw [update_ips_last4, update_ips_last4, hl]
      have hn : needs_update (update_ips t1 x1 x2 x3) =
          needs_update (update_ips t2 x1 y2 y3) := by
        simp only [needs_update, hk1', hk2', update_ips_new4, update_ips_last4, hl]
      simp only [run_set_desired]
      rw [hn, ih _ _ hk1' hk2' hl' rest2 h2]

/-- C1: with a single target needing an update whose call raises a
non-ClientResponseError exception, the handler raises `NameError` (the
warning f-string on line 149 evaluates the undefined name `e`) instead of
logging the failure, folding it into the aggregate and returning a
disposition. -/
theorem dyndns_nameError_on_generic_exception :
    dyndns (some 1) (some 2) none [ionos0] (fun _ => GetResult.raiseOther) =
      Except.error PyExc.nameError := rfl

/-- C2: with one call failing as a 429 ClientResponseError and another
raising a generic exception, the claimed reduction demands the 500
generic-failure disposition, but the handler raises `NameError` and
produces no disposition at all. -/
theorem dyndns_nameError_on_mixed_failures :
    dyndns (some 1) (some 2) none [ionos0, inwx0]
        (fun i => if i = 0 then GetResult.raiseRespErr 429 else GetResult.raiseOther) =
      Except.error PyExc.nameError := rfl

/-- C3: `update_ips` sets desired IPv4 verbatim; with a configured suffix it
ignores the input ipv6 entirely — desired IPv6 is the combiner value
`Combiner(prefix, suffix)` when a prefix is present and is cleared to `none`
otherwise; without a suffix, desired IPv6 is the input ipv6 verbatim and the
prefix is ignored. -/
theorem update_ips_set_desired_spec (t : Target) (ipv4 ipv6 : Option Nat)
    (ipv6pfx : Option IPv6Network) :
    (update_ips t ipv4 ipv6 ipv6pfx).new_ipv4 = ipv4 ∧
    (∀ sfx, t.ipv6_suffix = some sfx →
      (∀ p, ipv6pfx = some p →
        (update_ips t ipv4 ipv6 ipv6pfx).new_ipv6 = some (combineV6 p sfx) ∧
        ip_from_network_and_suffix ⟨IPVersion.v6, p.network_address⟩
            ⟨IPVersion.v6, sfx⟩ = Except.ok ⟨IPVersion.v6, combineV6 p sfx⟩) ∧
      (ipv6pfx = none → (update_ips t ipv4 ipv6 ipv6pfx).new_ipv6 = none)) ∧
    (t.ipv6_suffix = none → (update_ips t ipv4 ipv6 ipv6pfx).new_ipv6 = ipv6) := by
  obtain ⟨k, nm, sf, n4, n6, l4, l6⟩ := t
  cases sf <;> cases ipv6pfx <;>
    simp [update_ips, combineV6_eq_combiner]

/-- Witness for C3 at concrete inputs: with suffix 3 and prefix 4 the
desired IPv6 becomes the combiner value; with no suffix it is the verbatim
input. -/
theorem update_ips_set_desired_spec_witness :
    (update_ips sfxT (some 1) (some 2) (some ⟨4⟩)).new_ipv6 =
      some (combineV6 ⟨4⟩ 3) ∧
    (update_ips (DynDNSTarget.init noName none) (some 1) (some 2) none).new_ipv6 =
      some 2 :=
  ⟨(((update_ips_set_desired_spec sfxT (some 1) (some 2) (some ⟨4⟩)).2.1 3
      rfl).1 ⟨4⟩ rfl).1,
   (update_ips_set_desired_spec (DynDNSTarget.init noName none) (some 1) (some 2)
      none).2.2 rfl⟩

/-- C4: for same-version inputs the combiner returns the address whose
integer value is the bitwise OR of the network's network-address bits and
the suffix bits, tagged with that same version; mismatched versions fail
with the `TypeError` (InputMismatch) and produce no result. -/
theorem ip_from_network_and_suffix_spec (network : IPNetwork) (suffix : IPAddress) :
    (network.version = suffix.version →
      ip_from_network_and_suffix network suffix =
        Except.ok ⟨network.version, Nat.lor network.network_address suffix.bits⟩) ∧
    (network.version ≠ suffix.version →
      ip_from_network_and_suffix network suffix = Except.error PyExc.typeError) := by
  constructor
  · intro h
    simp [ip_from_network_and_suffix, h]
  · intro h
    simp [ip_from_network_and_suffix, h]

/-- Witness for C4: v6 network 5 with v6 suffix 3 combines to 7, and a v6
network with a v4 suffix fails with the `TypeError`. -/
theorem ip_from_network_and_suffix_spec_witness :
    ip_from_network_and_suffix ⟨IPVersion.v6, 5⟩ ⟨IPVersion.v6, 3⟩ =
      Except.ok ⟨IPVersion.v6, 7⟩ ∧
    ip_from_network_and_suffix ⟨IPVersion.v6, 5⟩ ⟨IPVersion.v4, 3⟩ =
      Except.error PyExc.typeError := by
  constructor
  · exact (ip_from_network_and_suffix_spec ⟨IPVersion.v6, 5⟩ ⟨IPVersion.v6, 3⟩).1 rfl
  · exact (ip_from_network_and_suffix_spec ⟨IPVersion.v6, 5⟩ ⟨IPVersion.v4, 3⟩).2
      (by decide)

/-- C5: an inbound request parsed as ipv4 present, ipv6 absent, ipv6 prefix
present makes the pass return the 200 success disposition immediately: for
every configured target list and prior state, zero outbound calls are
issued and every target's desired and confirmed state is unchanged. -/
theorem dyndns_fritzbox_filter (a : Nat) (p : IPv6Network)
    (targets : List Target) (tr : Nat → GetResult) :
    dyndns (some a) none (some p) targets tr = Except.ok ⟨200, targets, 0⟩ := by
  simp [dyndns]

/-- C6: whenever `do_update` returns `True`, the resulting confirmed state
equals the desired state at the time of the call, and `needs_update` on the
result is false, for every target variant and prior state. -/
theorem do_update_success_confirms_desired (t : Target) (g : GetResult)
    (h : (do_update t g).2 = Except.ok true) :
    (do_update t g).1.last_successful_ipv4 = t.new_ipv4 ∧
    (do_update t g).1.last_successful_ipv6 = t.new_ipv6 ∧
    needs_update (do_update t g).1 = false := by
  obtain ⟨k, nm, sf, n4, n6, l4, l6⟩ := t
  cases k <;> cases g <;>
    simp_all [do_update, needs_update, apply_ite]

/-- Witness for C6: a fresh Ionos target succeeding with a 200 response. -/
theorem do_update_success_confirms_desired_witness :
    (do_update ionos0 (GetResult.resp 200)).1.last_successful_ipv4 = ionos0.new_ipv4 ∧
    (do_update ionos0 (GetResult.resp 200)).1.last_successful_ipv6 = ionos0.new_ipv6 ∧
    needs_update (do_update ionos0 (GetResult.resp 200)).1 = false :=
  do_update_success_confirms_desired ionos0 (GetResult.resp 200) rfl

/-- C7: a `do_update` call that does not return `True` (a `False` result or
a raised transport error) leaves both confirmed fields exactly as they
were — confirmed state is never partially updated. -/
theorem do_update_failure_preserves_confirmed (t : Target) (g : GetResult)
    (h : (do_update t g).2 ≠ Except.ok true) :
    (do_update t g).1.last_successful_ipv4 = t.last_successful_ipv4 ∧
    (do_update t g).1.last_successful_ipv6 = t.last_successful_ipv6 := by
  obtain ⟨k, nm, sf, n4, n6, l4, l6⟩ := t
  cases k <;> cases g <;>
    simp_all [do_update, apply_ite]

/-- Witness for C7: a fresh INWX target with desired state set, failing with
a 404 response, keeps its confirmed state. -/
theorem do_update_failure_preserves_confirmed_witness :
    (do_update (update_ips inwx0 (some 1) (some 2) none)
        (GetResult.resp 404)).1.last_successful_ipv4 =
      (update_ips inwx0 (some 1) (some 2) none).last_successful_ipv4 ∧
    (do_update (update_ips inwx0 (some 1) (some 2) none)
        (GetResult.resp 404)).1.last_successful_ipv6 =
      (update_ips inwx0 (some 1) (some 2) none).last_successful_ipv6 :=
  do_update_failure_preserves_confirmed (update_ips inwx0 (some 1) (some 2) none)
    (GetResult.resp 404) (fun hcon => Bool.noConfusion (Except.ok.inj hcon))

/-- C8: a Namecheap target's `needs_update` trace is invariant under the
ipv6 and ipv6-prefix inputs: two `update_ips` sequences with identical ipv4
components produce identical `needs_update` observations, so varying only
ipv6 never changes (in particular never raises) `needs_update`. -/
theorem namecheap_needs_update_ignores_ipv6 (t : Target)
    (hk : t.kind = TargetKind.namecheap)
    (xs ys : List (Option Nat × Option Nat × Option IPv6Network))
    (h : xs.map Prod.fst = ys.map Prod.fst) :
    run_set_desired t xs = run_set_desired t ys :=
  run_set_desired_namecheap_congr t t hk hk rfl xs ys h

/-- Witness for C8: one step with ipv6 2 and no prefix observes the same
`needs_update` as one step with no ipv6 and prefix 7. -/
theorem namecheap_needs_update_ignores_ipv6_witness :
    run_set_desired namecheap0 [(some 1, some 2, none)] =
      run_set_desired namecheap0 [(some 1, none, some ⟨7⟩)] :=
  namecheap_needs_update_ignores_ipv6 namecheap0 rfl
    [(some 1, some 2, none)] [(some 1, none, some ⟨7⟩)] rfl

/-- C9 counterexample: a provider `do_update` given a delivered 304 response
returns `True`, although 304 is not a 2xx-class status — so "true iff the
transport reports a 2xx-class response" fails on the code. -/
theorem do_update_true_on_status_304 :
    (do_update ionos0 (GetResult.resp 304)).2 = Except.ok true ∧
    ¬(200 ≤ 304 ∧ 304 ≤ 299) := ⟨rfl, by decide⟩

/-- C9 amended: each real provider adapter's `do_update` returns `True` iff
the transport delivered a response with status < 400 (aiohttp's `ok`
predicate, which also accepts 3xx statuses such as 304); any error-class
status yields `False` and any raised transport failure propagates — never
`True`. -/
theorem do_update_true_iff_response_ok (t : Target)
    (hk : t.kind ≠ TargetKind.generic) (g : GetResult) :
    (do_update t g).2 = Except.ok true ↔
      ∃ s, g = GetResult.resp s ∧ s < 400 := by
  obtain ⟨k, nm, sf, n4, n6, l4, l6⟩ := t
  cases k with
  | generic => exact absurd rfl hk
  | _ =>
    cases g with
    | resp s => by_cases hs : s < 400 <;> simp [do_update, hs]
    | raiseRespErr s => simp [do_update]
    | raiseOther => simp [do_update]

/-- Witness for C9 amended: an Ionos target with a delivered 200 response
returns `True`. -/
theorem do_update_true_iff_response_ok_witness :
    (do_update ionos0 (GetResult.resp 200)).2 = Except.ok true :=
  (do_update_true_iff_response_ok ionos0 (by decide) (GetResult.resp 200)).mpr
    ⟨200, rfl, by decide⟩

/-- C10: a Namecheap target constructed with a suffix argument does not
retain it: after any sequence of `update_ips` calls the stored suffix is
still `none`, and the next `update_ips` sets desired IPv6 verbatim from the
input ipv6, ignoring the prefix and the constructor-supplied suffix. -/
theorem namecheap_init_drops_ipv6_suffix (pw host domain : String) (sfx : Nat)
    (l : List (Option Nat × Option Nat × Option IPv6Network))
    (i4 i6 : Option Nat) (p : Option IPv6Network) :
    (apply_updates (NamecheapDynDNSTarget.init pw host domain (some sfx))
        l).ipv6_suffix = none ∧
    (update_ips (apply_updates (NamecheapDynDNSTarget.init pw host domain (some sfx))
        l) i4 i6 p).new_ipv6 = i6 := by
  have h : (apply_updates (NamecheapDynDNSTarget.init pw host domain (some sfx))
      l).ipv6_suffix = none := by
    rw [apply_updates_suffix]; rfl
  exact ⟨h, by simp [update_ips, h]⟩

end DynDNS
